import Mathlib

/-
Shallow embedding of `python.d/python_modules/base.py` (netdata python.d
module prototypes): the `BaseService` scheduling loop and streaming
protocol encoder, and the `UrlService` dynamic-chart derivation.

Modelling conventions:
* Python dynamic values passed to `int(...)` / `str(...)` are modelled by
  the inductive `PyVal`; `int(...)` is `pyInt`, returning `Except PyErr`
  because CPython raises `TypeError` for values of non-numeric type and
  `ValueError` for unparsable strings, and the source catches only
  `TypeError`.
* Timestamps (`time.time()`) and the configured interval are modelled as
  `Int`; Python's `%` on a positive divisor agrees with `Int.emod`.
* `self.update(...)` inside `_run_once` is an oracle input (`UpdResult`):
  it returned `True`, returned `False`, or raised.
* Writes to stderr via `self.error(...)` are recorded in a `log` field;
  writes to the statement buffer `self.data_stream` are a `String` field.
-/

/-- Python runtime value as far as `base.py` inspects one: an integer, a
string, or `None` (standing for any value whose `int(...)` conversion
raises `TypeError`). -/
inductive PyVal where
  | int (n : Int)
  | str (s : String)
  | none
deriving DecidableEq

/-- Python exception classes relevant to `int(...)` conversion. -/
inductive PyErr where
  | typeError
  | valueError
  | keyError
deriving DecidableEq

/-- Python `str(...)` on a `PyVal`. -/
def pyStr : PyVal → String
  | .int n => toString n
  | .str s => s
  | .none => "None"

/-- Decimal digit value of a character, if it is a digit. -/
def digitVal (c : Char) : Option Nat :=
  if '0' ≤ c ∧ c ≤ '9' then some (c.toNat - 48) else Option.none

/-- Value of a nonempty digit run, most significant first, accumulated
left to right; `Option.none` on any non-digit character. -/
def parseDigitsAux : List Char → Nat → Option Nat
  | [], acc => some acc
  | c :: cs, acc =>
    match digitVal c with
    | some d => parseDigitsAux cs (10 * acc + d)
    | Option.none => Option.none

/-- Python `int(...)` applied to a string: an optional leading minus sign
followed by at least one decimal digit; anything else raises
`ValueError` (returns `Option.none` here). -/
def strToInt : String → Option Int :=
  fun s =>
    match s.data with
    | [] => Option.none
    | c :: cs =>
      if c = '-' then
        match cs with
        | [] => Option.none
        | _ => (parseDigitsAux cs 0).map (fun n => -(n : Int))
      else
        (parseDigitsAux (c :: cs) 0).map (fun n => (n : Int))

/-- Python `int(...)` on a `PyVal`: succeeds on integers and on strings
that parse as an integer; raises `ValueError` on other strings and
`TypeError` on non-numeric types (modelled by `PyVal.none`). -/
def pyInt : PyVal → Except PyErr Int
  | .int n => .ok n
  | .str s =>
    match strToInt s with
    | some n => .ok n
    | Option.none => .error .valueError
  | .none => .error .typeError

/-- Single-quote character, written via its code point. -/
def squote : String := (Char.ofNat 39).toString

namespace BaseService

/-- Mutable state of a `BaseService` instance touched by the protocol
encoder methods: the statement buffer `data_stream`, the registered chart
and dimension ids, plus the stderr log written through `self.error`. -/
structure BaseState where
  data_stream : String
  chart_name : String
  charts : List String
  dimensions : List String
  log : List String
deriving DecidableEq

/-- Model of `self.error(*params)`, which forwards `chart_name` and the
params to `msg.error`: one log entry, parts joined by single spaces. -/
def logError (s : BaseState) (parts : List String) : BaseState :=
  { s with log := s.log ++ [String.intercalate " " (s.chart_name :: parts)] }

/-- Per-field rendering performed by `_line` on `str(p)`: an empty field
becomes the two-character token `''`; a field containing a space
(Python `' ' in p`, i.e. membership of the space character in the
string's characters) is wrapped in single quotes. -/
def lineParam (p : String) : String :=
  if p.length = 0 then squote ++ squote
  else if ' ' ∈ p.data then squote ++ p ++ squote
  else p

/-- The `for p in params` loop of `_line`: each param is `str(...)`ed,
rendered by `lineParam`, and appended preceded by one space. -/
def renderParams : List PyVal → String
  | [] => ""
  | p :: rest => " " ++ lineParam (pyStr p) ++ renderParams rest

/-- Model of `BaseService._line(instruction, *params)`: appends one
statement line to `data_stream`. -/
def line (s : BaseState) (instruction : String) (params : List PyVal) : BaseState :=
  { s with data_stream := s.data_stream ++ instruction ++ renderParams params ++ "\n" }

/-- Model of `BaseService.chart`: registers `type_id` and appends a CHART
statement with the nine fields in order. -/
def chart (s : BaseState) (type_id : String)
    (name title units family category charttype priority update_every : PyVal) :
    BaseState :=
  line { s with charts := s.charts ++ [type_id] } "CHART"
    [.str type_id, name, title, units, family, category, charttype, priority, update_every]

/-- Valid values for the `algorithm` argument of `dimension`. -/
def validAlgorithms : List String :=
  ["absolute", "incremental", "percentage-of-absolute-row", "percentage-of-incremental-row"]

/-- Model of `BaseService.dimension`: `int(multiplier)` / `int(divisor)`
are tried with only `TypeError` caught (logging and substituting 1;
`ValueError` propagates); `name` defaults to `id`; an `algorithm` outside
the fixed enum is silently replaced by absolute (no log); the id is
registered and a DIMENSION statement appended, with the literal hidden
marker exactly when `hidden` is true. -/
def dimension (s : BaseState) (id : String) (name : Option String) (algorithm : String)
    (multiplier divisor : PyVal) (hidden : Bool) : Except PyErr BaseState :=
  match pyInt multiplier with
  | .error .valueError => .error .valueError
  | .error .keyError => .error .keyError
  | r1 =>
    let (s1, multiplier) :=
      match r1 with
      | .error .typeError =>
        (logError s ["malformed dimension: multiplier is not a number:", pyStr multiplier],
         PyVal.int 1)
      | _ => (s, multiplier)
    match pyInt divisor with
    | .error .valueError => .error .valueError
    | .error .keyError => .error .keyError
    | r2 =>
      let (s2, divisor) :=
        match r2 with
        | .error .typeError =>
          (logError s1 ["malformed dimension: divisor is not a number:", pyStr divisor],
           PyVal.int 1)
        | _ => (s1, divisor)
      let name := name.getD id
      let algorithm := if algorithm ∈ validAlgorithms then algorithm else "absolute"
      let s3 := { s2 with dimensions := s2.dimensions ++ [id] }
      if hidden then
        .ok (line s3 "DIMENSION" [.str id, .str name, .str algorithm, multiplier, divisor, .str "hidden"])
      else
        .ok (line s3 "DIMENSION" [.str id, .str name, .str algorithm, multiplier, divisor])

/-- Model of `BaseService.begin`: an unregistered `type_id` logs and
returns `False` writing nothing; otherwise `int(microseconds)` is tried
with only `TypeError` caught (logging and substituting the empty string;
`ValueError` propagates) and a BEGIN statement is appended. -/
def begin (s : BaseState) (type_id : String) (microseconds : PyVal) :
    Except PyErr (Bool × BaseState) :=
  if type_id ∈ s.charts then
    match pyInt microseconds with
    | .ok _ => .ok (true, line s "BEGIN" [.str type_id, microseconds])
    | .error .typeError =>
      .ok (true,
        line (logError s ["malformed begin statement: microseconds are not a number:",
                          pyStr microseconds])
          "BEGIN" [.str type_id, .str ""])
    | .error e => .error e
  else
    .ok (false, logError s ["wrong chart type_id:", type_id])

/-- Model of `BaseService.set`: an unregistered `id` logs and returns
`False`; `str(int(value))` is tried with only `TypeError` caught (logging
and returning `False`; `ValueError` propagates); on success a
`SET id = value` statement is appended. -/
def set (s : BaseState) (id : String) (value : PyVal) : Except PyErr (Bool × BaseState) :=
  if id ∈ s.dimensions then
    match pyInt value with
    | .ok n => .ok (true, line s "SET" [.str id, .str "=", .str (toString n)])
    | .error .typeError => .ok (false, logError s ["cannot set non-numeric value:", pyStr value])
    | .error e => .error e
  else
    .ok (false, logError s ["wrong dimension id:", id])

/-- Scheduler state: the `timetable` dict (`last`, `next`, `freq`) plus
the retry fields `retries` and `retries_left` of the instance.  After
`create_timetable`, `next = now - now % freq + freq`, a multiple of
`freq`; after `_extract_base_config`, `retries_left = retries`. -/
structure SchedState where
  last : Int
  next : Int
  freq : Int
  retries : Int
  retries_left : Int
deriving DecidableEq

/-- Outcome of the `self.update(since_last)` call inside `_run_once`:
returned `True`, returned `False`, or raised an exception (which
`_run_once` does not catch). -/
inductive UpdResult where
  | ok (b : Bool)
  | raises
deriving DecidableEq

/-- Model of `BaseService._run_once` at start time `t_start` and end time
`t_end`: if the job is not yet due (`next > t_start`) it returns `True`
untouched without calling `update`; if `update` returns `False` it
returns `False`; on success it recomputes
`next := t_end - t_end % freq + freq`, sets `last := t_start` and returns
`True`.  An exception from `update` escapes (`Except.error`). -/
def runOnce (st : SchedState) (t_start t_end : Int) (u : UpdResult) :
    Except Unit (Bool × SchedState) :=
  if st.next > t_start then
    .ok (true, st)
  else
    match u with
    | .raises => .error ()
    | .ok false => .ok (false, st)
    | .ok true =>
      .ok (true, { st with
        next := t_end - t_end % st.freq + st.freq,
        last := t_start })

/-- One iteration of the `while True` body of `BaseService.run`:
`_run_once` is tried; an exception is logged and terminates the loop
(`none`); on status `True` the loop sleeps and sets
`retries_left := retries`; on status `False` it decrements `retries`
(sic: not `retries_left`) and terminates only when `retries_left ≤ 0`. -/
def runStep (st : SchedState) (t_start t_end : Int) (u : UpdResult) : Option SchedState :=
  match runOnce st t_start t_end u with
  | .error _ => Option.none
  | .ok (true, st') => some { st' with retries_left := st'.retries }
  | .ok (false, st') =>
    let st2 := { st' with retries := st'.retries - 1 }
    if st2.retries_left ≤ 0 then Option.none else some st2

/-- N iterations of the `run` loop, with the start time, end time and
`update` outcome of iteration `k` supplied by the oracles `ts`, `te`,
`u`; `none` means the loop terminated within the first N iterations. -/
def runN (st : SchedState) (ts te : Nat → Int) (u : Nat → UpdResult) : Nat → Option SchedState
  | 0 => some st
  | Nat.succ n => (runN st ts te u n).bind (fun s => runStep s (ts n) (te n) (u n))

end BaseService

namespace UrlService

/-- One entry of a chart's `lines` list in the `charts` declaration
table: the dimension name and its pre-formatted DIMENSION parameters. -/
structure DimLine where
  name : String
  options : String
deriving DecidableEq

/-- One chart declaration: its pre-formatted CHART parameters and its
ordered `lines`. -/
structure ChartDef where
  options : String
  lines : List DimLine
deriving DecidableEq

/-- State of a `UrlService` instance used by `create`/`update`: the
static declaration table `charts`, the emission order `order`, the
dynamically built `definitions`, plus the naming and config fields that
appear in the emitted headers. -/
structure UrlState where
  moduleName : String
  name : String
  priority : Int
  update_every : Int
  order : List String
  charts : List (String × ChartDef)
  definitions : List (String × List String)
deriving DecidableEq

/-- Python dict assignment `d[k] = v` on an association list: replaces
the first binding of `k` in place, else appends. -/
def dictSet {α : Type} : List (String × α) → String → α → List (String × α)
  | [], k, v => [(k, v)]
  | (k', v') :: rest, k, v =>
    if k' = k then (k, v) :: rest else (k', v') :: dictSet rest k v

/-- The first loop of `UrlService.create`: for each name in `order` that
is a key of `charts` (names missing from `charts` are skipped by the
`if name not in self.charts: continue` guard), set
`definitions[name]` to the list of that chart's line names. -/
def buildDefinitions (charts : List (String × ChartDef))
    (defs : List (String × List String)) : List String → List (String × List String)
  | [] => defs
  | name :: rest =>
    match charts.lookup name with
    | Option.none => buildDefinitions charts defs rest
    | some cd => buildDefinitions charts (dictSet defs name (cd.lines.map DimLine.name)) rest

/-- The emission loop of `UrlService.create`: for each name in `order`
it builds the CHART header by indexing `self.charts[name]` with no
membership guard (`KeyError` escapes when the name is missing), appends
a DIMENSION line for each declared line whose name is a key of `data`, and
emits the chart only when at least one dimension matched, incrementing
`idx`.  Returns the final `idx` and the emitted text. -/
def createLoop (u : UrlState) (data : List (String × Int)) :
    List String → Int → String → Except PyErr (Int × String)
  | [], idx, acc => .ok (idx, acc)
  | name :: rest, idx, acc =>
    match u.charts.lookup name with
    | Option.none => .error .keyError
    | some cd =>
      let header := "CHART " ++ u.moduleName ++ "_" ++ u.name ++ "." ++ name ++ " " ++
        cd.options ++ " " ++ toString (u.priority + idx) ++ " " ++ toString u.update_every
      let content := cd.lines.foldl
        (fun c l =>
          if (data.lookup l.name).isSome then
            c ++ "\nDIMENSION " ++ l.name ++ " " ++ l.options
          else c) ""
      if content.length > 0 then
        createLoop u data rest (idx + 1) (acc ++ header ++ content ++ "\n")
      else
        createLoop u data rest idx acc

/-- Model of `UrlService.create`: first `definitions` is rebuilt from the
full declaration table (independently of any fetched data), then one
dataset is fetched (`data`, `none` when `_formatted_data` returns None,
which makes `create` return `False`), then the emission loop runs and
the accumulated text is printed; the return value is `idx != 0`.  The
result carries (return value, state after the definitions rebuild,
emitted text). -/
def create (u : UrlState) (data : Option (List (String × Int))) :
    Except PyErr (Bool × UrlState × String) :=
  let u' := { u with definitions := buildDefinitions u.charts u.definitions u.order }
  match data with
  | Option.none => .ok (false, u', "")
  | some d =>
    match createLoop u' d u'.order 0 "" with
    | .error e => .error e
    | .ok (idx, stream) => .ok (if idx = 0 then false else true, u', stream)

/-- Model of `UrlService.update`: fetches a dataset (`none` returns
`False` with no output); for each entry of `definitions` (in order) it
emits BEGIN, one SET per dimension name that is a key of the dataset
(`KeyError` on a missing key is caught and the SET skipped), and END —
but only when at least one SET was produced. -/
def update (u : UrlState) (interval : Int) (data : Option (List (String × Int))) :
    Bool × String :=
  match data with
  | Option.none => (false, "")
  | some d =>
    let stream := u.definitions.foldl
      (fun acc cd =>
        let header := "BEGIN " ++ u.moduleName ++ "_" ++ u.name ++ "." ++ cd.1 ++ " " ++
          toString interval
        let c := cd.2.foldl
          (fun c dim =>
            match d.lookup dim with
            | Option.none => c
            | some v => c ++ "\nSET " ++ dim ++ " = " ++ toString v) ""
        if c.length ≠ 0 then acc ++ header ++ c ++ "\nEND\n" else acc) ""
    (true, stream)

end UrlService

/-! Helper lemmas shared by several verification theorems. -/

theorem string_eq_empty_of_length_eq_zero {p : String} (h : p.length = 0) : p = "" := by
  cases p with
  | mk data =>
    rw [String.length_mk] at h
    rw [List.length_eq_zero.mp h]

theorem runStep_success (st : BaseService.SchedState) (ts te : Int) (h : st.next ≤ ts) :
    BaseService.runStep st ts te (BaseService.UpdResult.ok true) =
      some ⟨ts, te - te % st.freq + st.freq, st.freq, st.retries, st.retries⟩ := by
  unfold BaseService.runStep BaseService.runOnce
  rw [if_neg (not_lt.mpr h)]

theorem next_aligned (f next t : Int) (hf : 0 < f) (hd : f ∣ next)
    (h1 : next ≤ t) (h2 : t < next + f) : t - t % f + f = next + f := by
  have hnm : next % f = 0 := Int.emod_eq_zero_of_dvd hd
  have hsub : (t - next) % f = t % f := by
    rw [Int.sub_emod, hnm, sub_zero, Int.emod_emod_of_dvd t (dvd_refl f)]
  have hlt : (t - next) % f = t - next := Int.emod_eq_of_lt (by omega) (by omega)
  have ht : t % f = t - next := by rw [← hsub, hlt]
  rw [ht]
  ring

/-! Verification theorems for the individual claims. -/

/-- Claim C6: a field whose text contains a space is rendered by the encoder's
per-field renderer (applied by `_line` to every field of every emitted
statement) wrapped in single quotes, and an empty field is rendered as
the two-character token of two single quotes. -/
theorem lineParam_quoting (p : String) :
    (' ' ∈ p.data → BaseService.lineParam p = squote ++ p ++ squote) ∧
    (p = "" → BaseService.lineParam p = squote ++ squote) := by
  constructor
  · intro h
    have hne : ¬ p.length = 0 := by
      intro h0
      rw [string_eq_empty_of_length_eq_zero h0] at h
      exact absurd h (by decide)
    unfold BaseService.lineParam
    rw [if_neg hne, if_pos h]
  · intro h
    subst h
    decide

/-- Witness for C6 at the spec's concrete fields: a name with a space is
quoted and an empty field becomes the two-character token. -/
theorem lineParam_quoting_witness :
    BaseService.lineParam "has space" = squote ++ "has space" ++ squote ∧
    BaseService.lineParam "" = squote ++ squote :=
  ⟨(lineParam_quoting "has space").1 (by decide), (lineParam_quoting "").2 rfl⟩

/-- Claim C7: when the cycle is due and `update` raises instead of returning a
status, the exception is caught by the single try/except at the top of
the `run` loop and the loop returns immediately — for every value of
`retries` and `retries_left`, i.e. without consulting or decrementing
the retry counter. -/
theorem run_unhandled_fault_fatal (st : BaseService.SchedState) (ts te : Int)
    (h : st.next ≤ ts) :
    BaseService.runStep st ts te BaseService.UpdResult.raises = Option.none := by
  have h' : BaseService.runOnce st ts te BaseService.UpdResult.raises = Except.error () := by
    unfold BaseService.runOnce
    rw [if_neg (not_lt.mpr h)]
  unfold BaseService.runStep
  rw [h']

/-- Witness for C7: a due cycle that raises terminates the loop even with
a large retry budget left. -/
theorem run_unhandled_fault_fatal_witness :
    BaseService.runStep ⟨0, 0, 1, 7, 7⟩ 0 0 BaseService.UpdResult.raises = Option.none :=
  run_unhandled_fault_fatal ⟨0, 0, 1, 7, 7⟩ 0 0 (by decide)

/-- Claim C1 (code-bug evidence): with `retries = retries_left = 1` a failing
due cycle decrements `retries` (not `retries_left`, which stays 1), so
the loop does not terminate after R = 1 consecutive failures, nor after
any further failure; a later success copies the decremented `retries`
into `retries_left` (here −1, not the configured R), after which one
more failure terminates. -/
theorem run_retry_counter_behavior :
    BaseService.runStep ⟨0, 0, 1, 1, 1⟩ 0 0 (BaseService.UpdResult.ok false) =
      some ⟨0, 0, 1, 0, 1⟩ ∧
    BaseService.runStep ⟨0, 0, 1, 0, 1⟩ 0 0 (BaseService.UpdResult.ok false) =
      some ⟨0, 0, 1, -1, 1⟩ ∧
    BaseService.runStep ⟨0, 0, 1, -1, 1⟩ 3 3 (BaseService.UpdResult.ok true) =
      some ⟨3, 4, 1, -1, -1⟩ ∧
    BaseService.runStep ⟨3, 4, 1, -1, -1⟩ 4 4 (BaseService.UpdResult.ok false) =
      Option.none := by
  refine ⟨?_, ?_, ?_, ?_⟩ <;> decide

/-- Claim C3 counterexample: with `freq = 1` and `next₀ = 1`, one successful
due cycle whose processing ends at `t_end = 6` (latency longer than the
interval) recomputes `next₁ = 7`, not `next₀ + 1·freq = 2`: the claimed
identity is not independent of per-cycle processing latency. -/
theorem drift_free_counterexample :
    BaseService.runStep ⟨0, 1, 1, 0, 1⟩ 1 6 (BaseService.UpdResult.ok true) =
      some ⟨1, 7, 1, 0, 0⟩ ∧ (7 : Int) ≠ 1 + 1 * 1 := by
  refine ⟨?_, ?_⟩ <;> decide

/-- Claim C3 (amended): `next` is recomputed after each successful due cycle as
`t_end - t_end % freq + freq`; since the initial `next` is a multiple of
`freq`, as long as every cycle starts no earlier than the current `next`
and its processing ends before `next + freq`, N consecutive successful
cycles give `next_N = next_0 + N·freq` exactly. -/
theorem scheduler_drift_free (st : BaseService.SchedState) (ts te : Nat → Int)
    (hf : 0 < st.freq) (hd : st.freq ∣ st.next) :
    ∀ N : Nat,
      (∀ k, k < N → st.next + (k : Int) * st.freq ≤ ts k) →
      (∀ k, k < N → st.next + (k : Int) * st.freq ≤ te k ∧
        te k < st.next + ((k : Int) + 1) * st.freq) →
      ∃ st', BaseService.runN st ts te (fun _ => BaseService.UpdResult.ok true) N = some st' ∧
        st'.next = st.next + (N : Int) * st.freq ∧ st'.freq = st.freq := by
  intro N
  induction N with
  | zero =>
    intro _ _
    exact ⟨st, rfl, by simp, rfl⟩
  | succ n ih =>
    intro hts hte
    obtain ⟨sn, hrun, hnext, hfreq⟩ :=
      ih (fun k hk => hts k (Nat.lt_succ_of_lt hk)) (fun k hk => hte k (Nat.lt_succ_of_lt hk))
    have hdvd : st.freq ∣ sn.next := by
      rw [hnext]
      exact dvd_add hd (dvd_mul_left st.freq (n : Int))
    have hdue : sn.next ≤ ts n := by
      rw [hnext]
      exact hts n (Nat.lt_succ_self n)
    have hlo : sn.next ≤ te n := by
      rw [hnext]
      exact (hte n (Nat.lt_succ_self n)).1
    have hhi : te n < sn.next + st.freq := by
      have h2 := (hte n (Nat.lt_succ_self n)).2
      have heq : st.next + ((n : Int) + 1) * st.freq = sn.next + st.freq := by
        rw [hnext]
        ring
      rw [← heq]
      exact h2
    have halign : te n - te n % st.freq + st.freq = sn.next + st.freq :=
      next_aligned st.freq sn.next (te n) hf hdvd hlo hhi
    refine ⟨⟨ts n, sn.next + st.freq, st.freq, sn.retries, sn.retries⟩, ?_, ?_, rfl⟩
    · have hstep := runStep_success sn (ts n) (te n) hdue
      simp only [BaseService.runN, hrun]
      show BaseService.runStep sn (ts n) (te n) (BaseService.UpdResult.ok true) = _
      rw [hstep, hfreq, halign]
    · show sn.next + st.freq = st.next + ((Nat.succ n : Nat) : Int) * st.freq
      rw [hnext]
      push_cast
      ring

/-- Witness for the amended C3: two consecutive in-window successful
cycles starting from `next₀ = 5`, `freq = 5` land `next₂` exactly at
`5 + 2·5`. -/
theorem scheduler_drift_free_witness :
    ∃ st', BaseService.runN ⟨0, 5, 5, 0, 0⟩ (fun k => 5 + 5 * (k : Int))
        (fun k => 8 + 5 * (k : Int)) (fun _ => BaseService.UpdResult.ok true) 2 = some st' ∧
      st'.next = 5 + ((2 : Nat) : Int) * 5 ∧ st'.freq = 5 :=
  scheduler_drift_free ⟨0, 5, 5, 0, 0⟩ (fun k => 5 + 5 * (k : Int))
    (fun k => 8 + 5 * (k : Int)) (by decide) (dvd_refl 5) 2 (by decide) (by decide)

/-! Evaluated facts about the per-field renderer used below. -/

theorem lineParam_eqsign : BaseService.lineParam "=" = "=" := by decide

theorem lineParam_one : BaseService.lineParam (toString (1 : Int)) = "1" := by decide

theorem lineParam_empty : BaseService.lineParam "" = squote ++ squote := by decide

theorem lineParam_hidden : BaseService.lineParam "hidden" = "hidden" := by decide

/-- Claim C4 (amended): `begin` on an id never passed to `chart` logs an error
and returns `False` appending nothing; on a registered id with an
`int(...)`-convertible `microseconds` it appends a BEGIN statement with
the microseconds field; a `microseconds` whose conversion raises
`TypeError` is logged and replaced by the empty string, which `_line`
renders as the two-character `''` token — so the field is present in the
emitted statement, not omitted; and a `microseconds` whose conversion
raises `ValueError` (a non-numeric string) propagates the exception
uncaught instead of being logged and handled. -/
theorem begin_spec (s : BaseService.BaseState) (tid : String) (ms : PyVal) :
    (tid ∉ s.charts →
      ∃ s', BaseService.begin s tid ms = .ok (false, s') ∧
        s'.data_stream = s.data_stream ∧ s'.log.length = s.log.length + 1) ∧
    (tid ∈ s.charts → ∀ n : Int, pyInt ms = .ok n →
      ∃ s', BaseService.begin s tid ms = .ok (true, s') ∧
        s'.data_stream = s.data_stream ++ "BEGIN" ++ " " ++ BaseService.lineParam tid ++
          " " ++ BaseService.lineParam (pyStr ms) ++ "\n") ∧
    (tid ∈ s.charts → pyInt ms = .error .typeError →
      ∃ s', BaseService.begin s tid ms = .ok (true, s') ∧
        s'.data_stream = s.data_stream ++ "BEGIN" ++ " " ++ BaseService.lineParam tid ++
          " " ++ squote ++ squote ++ "\n" ∧
        s'.log.length = s.log.length + 1) ∧
    (tid ∈ s.charts → pyInt ms = .error .valueError →
      BaseService.begin s tid ms = .error .valueError) := by
  refine ⟨?_, ?_, ?_, ?_⟩
  · intro h
    refine ⟨BaseService.logError s ["wrong chart type_id:", tid], ?_, rfl, ?_⟩
    · simp [BaseService.begin, h]
    · simp [BaseService.logError]
  · intro h n hn
    refine ⟨BaseService.line s "BEGIN" [.str tid, ms], ?_, ?_⟩
    · simp [BaseService.begin, h, hn]
    · simp [BaseService.line, BaseService.renderParams, pyStr, String.append_assoc,
        -String.reduceAppend]
  · intro h hn
    refine ⟨BaseService.line
      (BaseService.logError s ["malformed begin statement: microseconds are not a number:",
        pyStr ms]) "BEGIN" [.str tid, .str ""], ?_, ?_, ?_⟩
    · simp [BaseService.begin, h, hn]
    · simp [BaseService.line, BaseService.logError, BaseService.renderParams, pyStr,
        lineParam_empty, String.append_assoc, -String.reduceAppend]
    · simp [BaseService.line, BaseService.logError]
  · intro h hn
    simp [BaseService.begin, h, hn]

/-- Witness for C4: with chart `c` registered, `begin` on the
unregistered id `x` fails appending nothing and logging once, and
`begin` on `c` with the non-numeric string `abc` raises `ValueError`. -/
theorem begin_spec_witness :
    (∃ s', BaseService.begin ⟨"", "t", ["c"], [], []⟩ "x" PyVal.none = .ok (false, s') ∧
      s'.data_stream = "" ∧ s'.log.length = List.length ([] : List String) + 1) ∧
    BaseService.begin ⟨"", "t", ["c"], [], []⟩ "c" (PyVal.str "abc") =
      .error PyErr.valueError :=
  ⟨(begin_spec ⟨"", "t", ["c"], [], []⟩ "x" PyVal.none).1 (by decide),
   (begin_spec ⟨"", "t", ["c"], [], []⟩ "c" (PyVal.str "abc")).2.2.2 (by decide) rfl⟩

/-- Claim C4 counterexample: for the registered chart `c` and a `microseconds`
whose `int(...)` raises `TypeError`, the emitted statement carries the
microseconds field rendered as the two-character quote token — the field
is not omitted as the claim states. -/
theorem begin_microseconds_counterexample :
    BaseService.begin ⟨"", "t", ["c"], [], []⟩ "c" PyVal.none =
      .ok (true, ⟨"BEGIN c " ++ squote ++ squote ++ "\n", "t", ["c"], [],
        ["t malformed begin statement: microseconds are not a number: None"]⟩) ∧
    "BEGIN c " ++ squote ++ squote ++ "\n" ≠ "BEGIN c" ++ "\n" := by
  exact ⟨rfl, by decide⟩

/-- Claim C5 (amended): `set` on an id never passed to `dimension` logs and
returns `False` leaving the buffer unchanged; with a registered id and a
value `int(...)` accepts it appends a `SET id = value` statement; a
value whose conversion raises `TypeError` is logged and `set` returns
`False` leaving the buffer unchanged; but a value whose conversion
raises `ValueError` (a non-numeric string) propagates the exception
uncaught instead of returning failure. -/
theorem set_spec (s : BaseService.BaseState) (id : String) (v : PyVal) :
    (id ∉ s.dimensions →
      ∃ s', BaseService.set s id v = .ok (false, s') ∧
        s'.data_stream = s.data_stream ∧ s'.log.length = s.log.length + 1) ∧
    (id ∈ s.dimensions → ∀ n : Int, pyInt v = .ok n →
      ∃ s', BaseService.set s id v = .ok (true, s') ∧
        s'.data_stream = s.data_stream ++ "SET" ++ " " ++ BaseService.lineParam id ++
          " " ++ "=" ++ " " ++ BaseService.lineParam (toString n) ++ "\n") ∧
    (id ∈ s.dimensions → pyInt v = .error .typeError →
      ∃ s', BaseService.set s id v = .ok (false, s') ∧
        s'.data_stream = s.data_stream ∧ s'.log.length = s.log.length + 1) ∧
    (id ∈ s.dimensions → pyInt v = .error .valueError →
      BaseService.set s id v = .error .valueError) := by
  refine ⟨?_, ?_, ?_, ?_⟩
  · intro h
    refine ⟨BaseService.logError s ["wrong dimension id:", id], ?_, rfl, ?_⟩
    · simp [BaseService.set, h]
    · simp [BaseService.logError]
  · intro h n hn
    refine ⟨BaseService.line s "SET" [.str id, .str "=", .str (toString n)], ?_, ?_⟩
    · simp [BaseService.set, h, hn]
    · simp [BaseService.line, BaseService.renderParams, pyStr, lineParam_eqsign,
        String.append_assoc, -String.reduceAppend]
  · intro h hn
    refine ⟨BaseService.logError s ["cannot set non-numeric value:", pyStr v], ?_, rfl, ?_⟩
    · simp [BaseService.set, h, hn]
    · simp [BaseService.logError]
  · intro h hn
    simp [BaseService.set, h, hn]

/-- Witness for C5: with dimension `d` registered, `set` on the
unregistered id `x` fails with the buffer unchanged, and `set` of the
coercible value 7 appends `SET d = 7`. -/
theorem set_spec_witness :
    (∃ s', BaseService.set ⟨"", "t", [], ["d"], []⟩ "x" (PyVal.int 7) = .ok (false, s') ∧
      s'.data_stream = "" ∧ s'.log.length = List.length ([] : List String) + 1) ∧
    (∃ s', BaseService.set ⟨"", "t", [], ["d"], []⟩ "d" (PyVal.int 7) = .ok (true, s') ∧
      s'.data_stream = "" ++ "SET" ++ " " ++ BaseService.lineParam "d" ++ " " ++ "=" ++
        " " ++ BaseService.lineParam (toString (7 : Int)) ++ "\n") :=
  ⟨(set_spec ⟨"", "t", [], ["d"], []⟩ "x" (PyVal.int 7)).1 (by decide),
   (set_spec ⟨"", "t", [], ["d"], []⟩ "d" (PyVal.int 7)).2.1 (by decide) 7 rfl⟩

/-- Claim C5 counterexample: the string value `abc` cannot be coerced to an
integer, yet `set` on the registered dimension `d` does not return
failure — the uncaught `ValueError` escapes (only `TypeError` is caught
by the source). -/
theorem set_valueerror_counterexample :
    strToInt "abc" = Option.none ∧
    BaseService.set ⟨"", "t", [], ["d"], []⟩ "d" (PyVal.str "abc") =
      Except.error PyErr.valueError :=
  ⟨rfl, rfl⟩

/-- Claim C8 (amended): `dimension` validates `multiplier`/`divisor` through
`int(...)` with only `TypeError` caught — such a value is replaced by 1
with the error logged, while a value whose conversion raises
`ValueError` propagates the exception uncaught; an `algorithm` outside
the fixed enum is replaced by absolute silently, with no log entry;
finally a DIMENSION statement is appended and the id registered, the
statement being suffixed with the literal hidden marker exactly when
`hidden` is true. -/
theorem dimension_spec (s : BaseService.BaseState) (id : String) (nm : Option String)
    (algorithm : String) (mult div : PyVal) (hidden : Bool) :
    (∀ m d : Int, pyInt mult = .ok m → pyInt div = .ok d →
      ∃ s', BaseService.dimension s id nm algorithm mult div hidden = .ok s' ∧
        s'.log = s.log ∧ s'.dimensions = s.dimensions ++ [id] ∧
        s'.data_stream = s.data_stream ++ "DIMENSION" ++ " " ++ BaseService.lineParam id ++
          " " ++ BaseService.lineParam (nm.getD id) ++ " " ++
          BaseService.lineParam
            (if algorithm ∈ BaseService.validAlgorithms then algorithm else "absolute") ++
          " " ++ BaseService.lineParam (pyStr mult) ++ " " ++
          BaseService.lineParam (pyStr div) ++
          (if hidden then " " ++ "hidden" else "") ++ "\n") ∧
    (∀ d : Int, pyInt mult = .error .typeError → pyInt div = .ok d →
      ∃ s', BaseService.dimension s id nm algorithm mult div hidden = .ok s' ∧
        s'.log.length = s.log.length + 1 ∧
        s'.data_stream = s.data_stream ++ "DIMENSION" ++ " " ++ BaseService.lineParam id ++
          " " ++ BaseService.lineParam (nm.getD id) ++ " " ++
          BaseService.lineParam
            (if algorithm ∈ BaseService.validAlgorithms then algorithm else "absolute") ++
          " " ++ "1" ++ " " ++ BaseService.lineParam (pyStr div) ++
          (if hidden then " " ++ "hidden" else "") ++ "\n") ∧
    (pyInt mult = .error .valueError →
      BaseService.dimension s id nm algorithm mult div hidden = .error .valueError) ∧
    (∀ m : Int, pyInt mult = .ok m → pyInt div = .error .valueError →
      BaseService.dimension s id nm algorithm mult div hidden = .error .valueError) := by
  refine ⟨?_, ?_, ?_, ?_⟩
  · intro m d hm hd'
    cases hidden with
    | false =>
      refine ⟨BaseService.line { s with dimensions := s.dimensions ++ [id] } "DIMENSION"
        [.str id, .str (nm.getD id),
         .str (if algorithm ∈ BaseService.validAlgorithms then algorithm else "absolute"),
         mult, div], ?_, rfl, rfl, ?_⟩
      · simp [BaseService.dimension, hm, hd']
      · simp [BaseService.line, BaseService.renderParams, pyStr, String.append_assoc,
          -String.reduceAppend]
    | true =>
      refine ⟨BaseService.line { s with dimensions := s.dimensions ++ [id] } "DIMENSION"
        [.str id, .str (nm.getD id),
         .str (if algorithm ∈ BaseService.validAlgorithms then algorithm else "absolute"),
         mult, div, .str "hidden"], ?_, rfl, rfl, ?_⟩
      · simp [BaseService.dimension, hm, hd']
      · simp [BaseService.line, BaseService.renderParams, pyStr, lineParam_hidden,
          String.append_assoc, -String.reduceAppend]
  · intro d hm hd'
    cases hidden with
    | false =>
      refine ⟨BaseService.line
        { BaseService.logError s
            ["malformed dimension: multiplier is not a number:", pyStr mult] with
          dimensions := s.dimensions ++ [id] } "DIMENSION"
        [.str id, .str (nm.getD id),
         .str (if algorithm ∈ BaseService.validAlgorithms then algorithm else "absolute"),
         PyVal.int 1, div], ?_, ?_, ?_⟩
      · simp [BaseService.dimension, hm, hd', BaseService.logError]
      · simp [BaseService.line, BaseService.logError]
      · simp [BaseService.line, BaseService.logError, BaseService.renderParams, pyStr,
          lineParam_one, String.append_assoc, -String.reduceAppend]
    | true =>
      refine ⟨BaseService.line
        { BaseService.logError s
            ["malformed dimension: multiplier is not a number:", pyStr mult] with
          dimensions := s.dimensions ++ [id] } "DIMENSION"
        [.str id, .str (nm.getD id),
         .str (if algorithm ∈ BaseService.validAlgorithms then algorithm else "absolute"),
         PyVal.int 1, div, .str "hidden"], ?_, ?_, ?_⟩
      · simp [BaseService.dimension, hm, hd', BaseService.logError]
      · simp [BaseService.line, BaseService.logError]
      · simp [BaseService.line, BaseService.logError, BaseService.renderParams, pyStr,
          lineParam_one, lineParam_hidden, String.append_assoc, -String.reduceAppend]
  · intro hm
    simp [BaseService.dimension, hm]
  · intro m hm hd'
    simp [BaseService.dimension, hm, hd']

/-- Witness for C8: an invalid algorithm with integer multiplier and
divisor yields a DIMENSION statement with nothing logged, and a
multiplier string that `int(...)` rejects raises `ValueError`. -/
theorem dimension_spec_witness :
    (∃ s', BaseService.dimension ⟨"", "t", [], [], []⟩ "d" Option.none "bogus"
        (PyVal.int 2) (PyVal.int 5) true = .ok s' ∧ s'.log = ([] : List String)) ∧
    BaseService.dimension ⟨"", "t", [], [], []⟩ "d" Option.none "absolute"
        (PyVal.str "x") (PyVal.int 1) false = .error PyErr.valueError := by
  refine ⟨?_, ?_⟩
  · obtain ⟨s', h1, h2, h3, h4⟩ :=
      (dimension_spec ⟨"", "t", [], [], []⟩ "d" Option.none "bogus" (PyVal.int 2)
        (PyVal.int 5) true).1 2 5 rfl rfl
    exact ⟨s', h1, h2⟩
  · exact (dimension_spec ⟨"", "t", [], [], []⟩ "d" Option.none "absolute"
      (PyVal.str "x") (PyVal.int 1) false).2.2.1 rfl

/-- Claim C8 counterexample: for the invalid algorithm `bogus` the appended
DIMENSION statement carries `absolute`, but the log stays empty — the
substitution is not logged, contradicting the claim that the correction
is logged. -/
theorem dimension_algorithm_counterexample :
    "bogus" ∉ BaseService.validAlgorithms ∧
    BaseService.dimension ⟨"", "t", [], [], []⟩ "d" Option.none "bogus"
        (PyVal.int 1) (PyVal.int 1) false =
      .ok ⟨"DIMENSION d d absolute 1 1" ++ "\n", "t", [], ["d"], []⟩ := by
  exact ⟨by decide, rfl⟩

/-- Claim Concrete `UrlService` instance of the C2 scenario: one chart `ch`
declaring dimensions `m1` and `m2`. -/
def c2State : UrlService.UrlState :=
  { moduleName := "mod", name := "local", priority := 140000, update_every := 1,
    order := ["ch"],
    charts := [("ch", ⟨"opts", [⟨"m1", "o1"⟩, ⟨"m2", "o2"⟩]⟩)],
    definitions := [] }

/-- Claim C2 counterexample: `create()` against dataset `m1 = 5` emits the
chart with only `m1`, but stores both declared dimension names in
`definitions`; the later `update()` cycle with dataset `m2 = 7` then
emits a non-empty BEGIN/SET/END block for the chart — not no block as
the claim states. -/
theorem dynamic_subsetting_counterexample :
    UrlService.create c2State (some [("m1", 5)]) =
      .ok (true, { c2State with definitions := [("ch", ["m1", "m2"])] },
        "CHART mod_local.ch opts 140000 1\nDIMENSION m1 o1\n") ∧
    (UrlService.update { c2State with definitions := [("ch", ["m1", "m2"])] } 3
        (some [("m2", 7)])).2 ≠ "" := by
  exact ⟨rfl, by decide⟩

/-- Claim C2 (amended): `create()` with dataset `m1 = 5` emits the chart with
only the `m1` DIMENSION line, but the active set `definitions` built by
`create()` keeps every declared dimension name unfiltered, so the later
`update()` cycle with dataset `m2 = 7` emits a BEGIN/SET/END block for
the chart containing `SET m2 = 7`. -/
theorem dynamic_subsetting_amended :
    UrlService.create c2State (some [("m1", 5)]) =
      .ok (true, { c2State with definitions := [("ch", ["m1", "m2"])] },
        "CHART mod_local.ch opts 140000 1\nDIMENSION m1 o1\n") ∧
    UrlService.update { c2State with definitions := [("ch", ["m1", "m2"])] } 3
        (some [("m2", 7)]) =
      (true, "BEGIN mod_local.ch 3\nSET m2 = 7\nEND\n") :=
  ⟨rfl, rfl⟩

theorem createLoop_keyError (u : UrlService.UrlState) (data : List (String × Int))
    (name : String) (hm : u.charts.lookup name = Option.none) :
    ∀ l : List String, name ∈ l → ∀ (idx : Int) (acc : String),
      UrlService.createLoop u data l idx acc = .error .keyError := by
  intro l
  induction l with
  | nil => intro h; cases h
  | cons hd tl ih =>
    intro hmem idx acc
    rcases List.mem_cons.mp hmem with heq | hmem'
    · subst heq
      simp [UrlService.createLoop, hm]
    · cases hcl : u.charts.lookup hd with
      | none => simp [UrlService.createLoop, hcl]
      | some cd =>
        simp only [UrlService.createLoop, hcl]
        split
        · exact ih hmem' _ _
        · exact ih hmem' _ _

/-- Claim C10: for a dynamic-source collector whose `order` list contains a
name that is not a key of its `charts` table, `create()` raises an
uncaught `KeyError` while building that chart's CHART header: the
emission loop indexes the chart table for every ordered name without
the membership guard that the definitions-building loop applies. -/
theorem create_missing_chart_raises (u : UrlService.UrlState)
    (data : List (String × Int)) (name : String)
    (hmem : name ∈ u.order) (hm : u.charts.lookup name = Option.none) :
    UrlService.create u (some data) = .error .keyError := by
  have h := createLoop_keyError
    { u with definitions := UrlService.buildDefinitions u.charts u.definitions u.order }
    data name hm u.order hmem 0 ""
  simp [UrlService.create, h]

/-- Witness for C10: an order entry `missing` with an empty chart table
makes `create` raise `KeyError`. -/
theorem create_missing_chart_raises_witness :
    UrlService.create
      { moduleName := "mod", name := "local", priority := 1, update_every := 1,
        order := ["missing"], charts := [], definitions := [] } (some []) =
      Except.error PyErr.keyError :=
  create_missing_chart_raises
    { moduleName := "mod", name := "local", priority := 1, update_every := 1,
      order := ["missing"], charts := [], definitions := [] } [] "missing"
    (by decide) rfl
